import Mathlib

/-!
Verification of the RINEX3 observation-filename validator (`rinex` package)
against its natural-language specification.

The development shallowly embeds the two source modules:

* `src/rinex/validate.py` — character-set pre-check and the eight per-field
  predicates;
* `src/rinex/observationfile.py` — the `Field` slice descriptors and the
  composite validator `ObservationFile.is_valid`.

Strings are modelled as Lean `String`s; the specification fixes the input
domain to ASCII byte sequences, and all character-level models below are
stated for that domain.  Fallible Python code (an uncaught exception) is
modelled with `Option`: `none` stands for an exception escaping the function.
The ISO 3166-1 alpha-3 country-code table is loaded from a data file that is
not part of the sources, so every definition that consults it takes the
loaded table as an explicit `codes : List String` argument.
-/

namespace Rinex

/-- Python slice `s[a:b]` for `0 ≤ a ≤ b` (`str.__getitem__` with a
`slice(a, b)`): the characters from index `a` (inclusive) to `b`
(exclusive), silently clipped to the string's length.  Python slicing never
raises for out-of-range bounds. -/
def pySlice (s : String) (a b : Nat) : String :=
  String.mk ((s.data.drop a).take (b - a))

/-- Python `str.split(sep)` for a one-character separator `sep` (no
`maxsplit` cap is needed at the places this model is used, see
`pathlibName`): the maximal `sep`-free runs, keeping empty runs, so the
result is always nonempty. -/
def splitOnChar (sep : Char) : List Char → List (List Char)
  | [] => [[]]
  | c :: cs =>
    match splitOnChar sep cs with
    | [] => [[]]
    | g :: gs => if c = sep then [] :: g :: gs else (c :: g) :: gs

/-- Python `pathlib.Path(s).name` on POSIX: the last component of the path,
where empty components (from repeated or trailing `/`) and `.` components
are dropped; the empty string when no component remains (e.g. for `"/"`,
`"."` or `""`).  A lone or trailing `..` component is kept, as `pathlib`
keeps it. -/
def pathlibName (s : String) : String :=
  let comps := (splitOnChar '/' s.data).filter (fun c => decide (c ≠ [] ∧ c ≠ ['.']))
  String.mk (comps.getLast?.getD [])

/-- Model of `FILENAME_CHARACTERS` of `validate.py`:
`set(string.ascii_uppercase + string.digits + '_')`. -/
def FILENAME_CHARACTERS : List Char :=
  "ABCDEFGHIJKLMNOPQRSTUVWXYZ0123456789_".data

/-- Model of `EXTENSION_CHARACTERS` of `validate.py`:
`set(string.ascii_lowercase + '.')`. -/
def EXTENSION_CHARACTERS : List Char :=
  "abcdefghijklmnopqrstuvwxyz.".data

/-- Model of `has_valid_characters` of `validate.py`.  The function first strips any
leading path (`pathlib.Path(s).name`), then unpacks
`fname.split('.', maxsplit=1)` into `basename, ext`; when `fname` contains
no `'.'` the unpacking raises an uncaught `ValueError` (modelled `none`).
Otherwise it checks `basename_set & FILENAME_CHARACTERS == basename_set`
(equivalently: every character of `basename` lies in
`FILENAME_CHARACTERS`), then the same for `ext` against
`EXTENSION_CHARACTERS`, returning `False` at the first failure. -/
def has_valid_characters (s : String) : Option Bool :=
  let cs := (pathlibName s).data
  if '.' ∈ cs then
    let basename := cs.takeWhile (fun c => c != '.')
    let ext := (cs.dropWhile (fun c => c != '.')).drop 1
    if ¬ basename.all (fun c => decide (c ∈ FILENAME_CHARACTERS)) then some false
    else if ¬ ext.all (fun c => decide (c ∈ EXTENSION_CHARACTERS)) then some false
    else some true
  else none

/-- Success of Python `int(t)` for the strings this code applies it to:
the length-1 slices `M = s[4:5]` and `R = s[5:6]` of a length-9 ASCII
string.  `int` on a single ASCII character succeeds exactly on the decimal
digits `0`–`9` (a lone sign, space or punctuation character raises
`ValueError`, as does the empty string). -/
def pyIntOk (t : String) : Bool :=
  !t.data.isEmpty && t.data.all Char.isDigit

/-- Model of `name_is_valid` of `validate.py`, with the lazily loaded country-code
table passed in as `codes`.  Requires length 9, `int(s[4:5])` and
`int(s[5:6])` to succeed, and `s[6:9]` to occur in the table. -/
def name_is_valid (codes : List String) (s : String) : Bool :=
  if s.length ≠ 9 then false
  else if ¬ pyIntOk (pySlice s 4 5) then false
  else if ¬ pyIntOk (pySlice s 5 6) then false
  else decide (pySlice s 6 9 ∈ codes)

/-- Model of `receiver_is_valid` of `validate.py`: length 1 and membership in the
tuple `('R', 'S', 'U')`. -/
def receiver_is_valid (s : String) : Bool :=
  if s.length ≠ 1 then false
  else decide (s ∈ ["R", "S", "U"])

/-- Numeric value of a run of ASCII decimal digits, as `int` /
`_strptime` read it (most significant first). -/
def digitsToNat (l : List Char) : Nat :=
  l.foldl (fun n c => 10 * n + (c.toNat - 48)) 0

/-- The `YYYY` group of a candidate start time: `int(s[0:4])`. -/
def yearField (s : String) : Nat := digitsToNat (s.data.take 4)

/-- The `DDD` (day-of-year) group: `int(s[4:7])`. -/
def doyField (s : String) : Nat := digitsToNat ((s.data.drop 4).take 3)

/-- The `HH` group: `int(s[7:9])`. -/
def hourField (s : String) : Nat := digitsToNat ((s.data.drop 7).take 2)

/-- The `MM` group: `int(s[9:11])`. -/
def minuteField (s : String) : Nat := digitsToNat ((s.data.drop 9).take 2)

/-- Model of `start_time_is_valid` of `validate.py`: length 11, then
`datetime.datetime.strptime(s, '%Y%j%H%M')` inside `try/except`.  The model
of the `strptime` call is derived from CPython's `_strptime` module, for
length-11 ASCII input:

* the compiled pattern is `\d\d\d\d` for `%Y`,
  `36[0-6]|3[0-5]\d|[1-2]\d\d|0[1-9]\d|00[1-9]|[1-9]\d|0[1-9]|[1-9]` for
  `%j`, `2[0-3]|[0-1]\d|\d` for `%H` and `[0-5]\d|\d` for `%M`, and the
  whole 11-character string must be consumed; since `%j`, `%H`, `%M` match
  at most 3, 2, 2 characters, the only split that can consume `4+7`
  characters is 4+3+2+2, so the match succeeds exactly when all eleven
  characters are digits, the day-of-year group lies in `1..366`, the hour
  group in `0..23` and the minute group in `0..59`;
* the parsed day-of-year is then resolved through
  `date.fromordinal(julian - 1 + date(year, 1, 1).toordinal())`, which
  raises for year `0000` (`year 0 is out of range`) and for the ordinal
  overflow at year `9999`, day `366` (year 10000 out of range); a day `366`
  of any other non-leap year is happily rolled over to January 1 of the
  following year and accepted.

Any exception makes the function return `False`. -/
def start_time_is_valid (s : String) : Bool :=
  if s.length = 11 then
    s.data.all Char.isDigit
      && decide (1 ≤ yearField s)
      && decide (1 ≤ doyField s) && decide (doyField s ≤ 366)
      && decide (hourField s ≤ 23) && decide (minuteField s ≤ 59)
      && !(decide (yearField s = 9999) && decide (doyField s = 366))
  else false

/-- Model of `FILE_PERIOD_UNITS_ALLOWED` of `validate.py`. -/
def FILE_PERIOD_UNITS_ALLOWED : List String := ["M", "H", "D", "Y", "U"]

/-- Model of `file_period_is_valid` of `validate.py`: length 3, then
`[int(d) for d in s[:2]]` must succeed (each of the first two characters is
a decimal digit) and `s[-1:]` (for a length-3 string, `s[2:3]`) must occur
in `FILE_PERIOD_UNITS_ALLOWED`. -/
def file_period_is_valid (s : String) : Bool :=
  if s.length ≠ 3 then false
  else if ¬ (pySlice s 0 2).data.all Char.isDigit then false
  else decide (pySlice s 2 3 ∈ FILE_PERIOD_UNITS_ALLOWED)

/-- Model of `DATA_FREQ_UNITS_ALLOWED` of `validate.py`. -/
def DATA_FREQ_UNITS_ALLOWED : List String := ["C", "Z", "S", "M", "H", "D", "U"]

/-- Model of `data_freq_is_valid` of `validate.py`: same shape as
`file_period_is_valid` with the larger unit table. -/
def data_freq_is_valid (s : String) : Bool :=
  if s.length ≠ 3 then false
  else if ¬ (pySlice s 0 2).data.all Char.isDigit then false
  else decide (pySlice s 2 3 ∈ DATA_FREQ_UNITS_ALLOWED)

/-- Model of `DATA_TYPE_VALID_OBSERVATION_CODES` of `validate.py`. -/
def DATA_TYPE_VALID_OBSERVATION_CODES : List String :=
  ["GO", "RO", "EO", "JO", "CO", "IO", "SO", "MO"]

/-- Model of `data_type_is_valid` of `validate.py`: length 2 and membership in the
observation-code tuple. -/
def data_type_is_valid (s : String) : Bool :=
  if s.length ≠ 2 then false
  else decide (s ∈ DATA_TYPE_VALID_OBSERVATION_CODES)

/-- Model of `format_is_valid` of `validate.py`: only the length is checked. -/
def format_is_valid (s : String) : Bool :=
  s.length = 3

/-- Model of `COMPRESSION_EXTENSIONS_ALLOWED` of `validate.py`. -/
def COMPRESSION_EXTENSIONS_ALLOWED : List String := ["gz", "bz2", "zip"]

/-- Model of `compression_is_valid` of `validate.py`: the empty string is allowed
(`if not len(s): return True`), otherwise membership in
`COMPRESSION_EXTENSIONS_ALLOWED`; no other length check is performed (the
one in the source is commented out). -/
def compression_is_valid (s : String) : Bool :=
  if s.length = 0 then true
  else decide (s ∈ COMPRESSION_EXTENSIONS_ALLOWED)

/-- Model of `ObservationFile` of `observationfile.py`: it merely stores the raw
filename string handed to `__init__`. -/
structure ObservationFile where
  _fname : String

/-- Model of `Field(0, 9)`: `self._fname[0:9]`.  The `Field` descriptor slices the
raw stored string; it does not strip a leading path. -/
def ObservationFile.name (o : ObservationFile) : String := pySlice o._fname 0 9

/-- Model of `Field(10, 11)`. -/
def ObservationFile.receiver (o : ObservationFile) : String := pySlice o._fname 10 11

/-- Model of `Field(12, 23)`. -/
def ObservationFile.start_time (o : ObservationFile) : String := pySlice o._fname 12 23

/-- Model of `Field(24, 27)`. -/
def ObservationFile.file_period (o : ObservationFile) : String := pySlice o._fname 24 27

/-- Model of `Field(28, 31)`. -/
def ObservationFile.data_freq (o : ObservationFile) : String := pySlice o._fname 28 31

/-- Model of `Field(32, 34)`. -/
def ObservationFile.data_type (o : ObservationFile) : String := pySlice o._fname 32 34

/-- Model of `Field(35, 38)`. -/
def ObservationFile.format_ (o : ObservationFile) : String := pySlice o._fname 35 38

/-- Model of `Field(39, 42)`. -/
def ObservationFile.compression (o : ObservationFile) : String := pySlice o._fname 39 42

/-- Model of `ObservationFile.is_valid` of `observationfile.py`: the conjunction

`has_valid_characters(self._fname) and name_is_valid(self.name) and
receiver_is_valid(self.receiver) and start_time_is_valid(self.start_time)
and file_period_is_valid(self.file_period) and
data_freq_is_valid(self.data_freq) and data_type_is_valid(self.data_type)
and format_is_valid(self.format_) and compression_is_valid(self.compression)`.

The country-code table consulted by `name_is_valid` is the explicit
argument `codes`.  An exception escaping `has_valid_characters` escapes
`is_valid` as well (`none`); all the field predicates are total. -/
def ObservationFile.is_valid (codes : List String) (o : ObservationFile) : Option Bool :=
  match has_valid_characters o._fname with
  | none => none
  | some hv => some (hv
      && name_is_valid codes o.name
      && receiver_is_valid o.receiver
      && start_time_is_valid o.start_time
      && file_period_is_valid o.file_period
      && data_freq_is_valid o.data_freq
      && data_type_is_valid o.data_type
      && format_is_valid o.format_
      && compression_is_valid o.compression)

/-- Modelled from the spec: the composite validator as §4.3/§4.4 of the
specification describe it, whose "final conjunction omits the `format`
field's predicate result from the overall verdict (only character-set,
name, receiver, start_time, file_period, data_freq, data_type, and
compression participate)".  It is the comparison point for claim C1 and is
identical to `ObservationFile.is_valid` except that the
`format_is_valid` conjunct is left out. -/
def is_valid_without_format (codes : List String) (s : String) : Option Bool :=
  match has_valid_characters s with
  | none => none
  | some hv => some (hv
      && name_is_valid codes (pySlice s 0 9)
      && receiver_is_valid (pySlice s 10 11)
      && start_time_is_valid (pySlice s 12 23)
      && file_period_is_valid (pySlice s 24 27)
      && data_freq_is_valid (pySlice s 28 31)
      && data_type_is_valid (pySlice s 32 34)
      && compression_is_valid (pySlice s 39 42))

/-- Modelled from the spec: claim C3's characterisation of a valid start
time — exactly 11 characters, all decimal digits, forming `YYYYDDDHHMM`
with a 4-digit Gregorian year (the Gregorian calendar has no year zero, so
`0001`–`9999`), day-of-year in `1..366`, hour in `0..23` and minute in
`0..59`. -/
def start_time_claim_spec (s : String) : Bool :=
  if s.length = 11 then
    s.data.all Char.isDigit
      && decide (1 ≤ yearField s)
      && decide (1 ≤ doyField s) && decide (doyField s ≤ 366)
      && decide (hourField s ≤ 23) && decide (minuteField s ≤ 59)
  else false

/-- Modelled from the spec (claim C10): "the extension part (the text after
the first `'.'`)" of a string; the empty string when there is no `'.'`. -/
def extAfterFirstDot (s : String) : String :=
  String.mk ((s.data.dropWhile (fun c => c != '.')).drop 1)

/-- Modelled from the spec (§6 canonical field layout): a filename whose
eight fields have the standard fixed widths, joined with the standard
separators — `_` between the six body fields, `.` before the format and,
when a compression field is present, `.` before it. -/
def canonicalLayout (n r t p f d fm c : String) : String :=
  n ++ "_" ++ r ++ "_" ++ t ++ "_" ++ p ++ "_" ++ f ++ "_" ++ d ++ "." ++ fm ++
    (if c = "" then "" else "." ++ c)

/-- Modelled from the spec (claim C9): re-concatenation of the eight
extracted fields with the standard separators, the compression suffix
appended only when the compression field is non-empty. -/
def recombine (o : ObservationFile) : String :=
  o.name ++ "_" ++ o.receiver ++ "_" ++ o.start_time ++ "_" ++ o.file_period ++ "_" ++
    o.data_freq ++ "_" ++ o.data_type ++ "." ++ o.format_ ++
    (if o.compression = "" then "" else "." ++ o.compression)

/-! ### Helper lemmas -/

theorem mk_data (s : String) : String.mk s.data = s := rfl

theorem length_eq_data_length (s : String) : s.length = s.data.length := rfl

theorem name_is_valid_ALGO (codes : List String) (h : "CAN" ∈ codes) :
    name_is_valid codes "ALGO00CAN" = true := by
  unfold name_is_valid
  rw [if_neg (by decide), if_neg (by decide), if_neg (by decide),
    show pySlice "ALGO00CAN" 6 9 = "CAN" from by decide]
  exact decide_eq_true h

theorem is_valid_concrete (codes : List String) (f : String)
    (hc : has_valid_characters f = some true)
    (hname : pySlice f 0 9 = "ALGO00CAN")
    (hr : receiver_is_valid (pySlice f 10 11) = true)
    (ht : start_time_is_valid (pySlice f 12 23) = true)
    (hp : file_period_is_valid (pySlice f 24 27) = true)
    (hq : data_freq_is_valid (pySlice f 28 31) = true)
    (hd : data_type_is_valid (pySlice f 32 34) = true)
    (hf : format_is_valid (pySlice f 35 38) = true)
    (hz : compression_is_valid (pySlice f 39 42) = true)
    (hCAN : "CAN" ∈ codes) :
    ObservationFile.is_valid codes ⟨f⟩ = some true := by
  simp only [ObservationFile.is_valid, ObservationFile.name, ObservationFile.receiver,
    ObservationFile.start_time, ObservationFile.file_period, ObservationFile.data_freq,
    ObservationFile.data_type, ObservationFile.format_, ObservationFile.compression,
    hc, hname, hr, ht, hp, hq, hd, hf, hz, name_is_valid_ALGO codes hCAN, Bool.and_self]

theorem file_period_norm (a b u : Char) :
    file_period_is_valid (String.mk [a, b, u]) =
      (a.isDigit && b.isDigit && decide (u ∈ (['M', 'H', 'D', 'Y', 'U'] : List Char))) := by
  have h01 : pySlice (String.mk [a, b, u]) 0 2 = String.mk [a, b] := by
    simp [pySlice]
  have h23 : pySlice (String.mk [a, b, u]) 2 3 = String.mk [u] := by
    simp [pySlice]
  have hmem : (String.mk [u] ∈ FILE_PERIOD_UNITS_ALLOWED) ↔
      u ∈ (['M', 'H', 'D', 'Y', 'U'] : List Char) := by
    simp [FILE_PERIOD_UNITS_ALLOWED, String.ext_iff]
  unfold file_period_is_valid
  rw [if_neg (by simp [length_eq_data_length]), h01, h23]
  by_cases ha : a.isDigit <;> by_cases hb : b.isDigit <;>
    simp [ha, hb, hmem]

/-! ### The claims -/

/-- C6: each of the five exemplar filenames
`ALGO00CAN_R_20121601000_{01H_01S_MO|15M_01S_GO|01H_05Z_MO|01D_30S_GO|01D_30S_MO}.rnx`
is accepted by `ObservationFile.is_valid`, provided the loaded country-code
table contains `"CAN"`. -/
theorem C6_exemplars_accepted (codes : List String) (h : "CAN" ∈ codes) :
    ObservationFile.is_valid codes ⟨"ALGO00CAN_R_20121601000_01H_01S_MO.rnx"⟩ = some true ∧
    ObservationFile.is_valid codes ⟨"ALGO00CAN_R_20121601000_15M_01S_GO.rnx"⟩ = some true ∧
    ObservationFile.is_valid codes ⟨"ALGO00CAN_R_20121601000_01H_05Z_MO.rnx"⟩ = some true ∧
    ObservationFile.is_valid codes ⟨"ALGO00CAN_R_20121601000_01D_30S_GO.rnx"⟩ = some true ∧
    ObservationFile.is_valid codes ⟨"ALGO00CAN_R_20121601000_01D_30S_MO.rnx"⟩ = some true := by
  refine ⟨?_, ?_, ?_, ?_, ?_⟩ <;>
    exact is_valid_concrete codes _ (by decide) (by decide) (by decide) (by decide) (by decide)
      (by decide) (by decide) (by decide) (by decide) h

/-- Witness for C6 at the concrete table `["CAN"]`. -/
theorem C6_witness :
    ObservationFile.is_valid ["CAN"] ⟨"ALGO00CAN_R_20121601000_01H_01S_MO.rnx"⟩ = some true ∧
    ObservationFile.is_valid ["CAN"] ⟨"ALGO00CAN_R_20121601000_15M_01S_GO.rnx"⟩ = some true ∧
    ObservationFile.is_valid ["CAN"] ⟨"ALGO00CAN_R_20121601000_01H_05Z_MO.rnx"⟩ = some true ∧
    ObservationFile.is_valid ["CAN"] ⟨"ALGO00CAN_R_20121601000_01D_30S_GO.rnx"⟩ = some true ∧
    ObservationFile.is_valid ["CAN"] ⟨"ALGO00CAN_R_20121601000_01D_30S_MO.rnx"⟩ = some true :=
  C6_exemplars_accepted ["CAN"] (by decide)

/-- C7: `file_period_is_valid s` holds exactly when `s` is three characters,
its first two characters are ASCII decimal digits, and its third character
is one of `M`, `H`, `D`, `Y`, `U`; the digit check is per-character, so a
sign, a decimal point or any other non-digit character in the first two
positions is rejected, as the examples `-1M`, `.0M`, `0.H` show. -/
theorem C7_file_period_characterisation :
    (∀ s : String, file_period_is_valid s = true ↔
      ∃ a b u : Char, s.data = [a, b, u] ∧ a.isDigit = true ∧ b.isDigit = true ∧
        u ∈ (['M', 'H', 'D', 'Y', 'U'] : List Char)) ∧
    file_period_is_valid "-1M" = false ∧
    file_period_is_valid ".0M" = false ∧
    file_period_is_valid "0.H" = false := by
  refine ⟨?_, by decide, by decide, by decide⟩
  intro s
  constructor
  · intro h
    have h3 : s.length = 3 := by
      by_contra hne
      unfold file_period_is_valid at h
      rw [if_pos hne] at h
      exact Bool.false_ne_true h
    obtain ⟨a, b, u, hdata⟩ := List.length_eq_three.mp (length_eq_data_length s ▸ h3)
    have hs : s = String.mk [a, b, u] := String.ext hdata
    rw [hs, file_period_norm] at h
    simp only [Bool.and_eq_true, decide_eq_true_eq] at h
    exact ⟨a, b, u, hdata, h.1.1, h.1.2, h.2⟩
  · rintro ⟨a, b, u, hdata, ha, hb, hu⟩
    have hs : s = String.mk [a, b, u] := String.ext hdata
    rw [hs, file_period_norm, ha, hb]
    simp [hu]

/-- Witness for C7: the exemplar period `15M` is valid, via the
characterisation. -/
theorem C7_witness : file_period_is_valid "15M" = true :=
  (C7_file_period_characterisation.1 "15M").mpr
    ⟨'1', '5', 'M', rfl, by decide, by decide, by decide⟩

/-- C8: the empty compression field is valid, and a non-empty one is valid
exactly when it is `gz`, `bz2` or `zip`; in particular `.gz` (separator
included) and `rar` are invalid, and nothing beyond table membership is
checked. -/
theorem C8_compression_characterisation :
    compression_is_valid "" = true ∧
    (∀ s : String, s ≠ "" →
      (compression_is_valid s = true ↔ (s = "gz" ∨ s = "bz2" ∨ s = "zip"))) ∧
    compression_is_valid ".gz" = false ∧
    compression_is_valid "rar" = false := by
  refine ⟨by decide, ?_, by decide, by decide⟩
  intro s hne
  unfold compression_is_valid
  rw [if_neg (fun h0 : s.length = 0 => hne (String.ext (List.length_eq_zero.mp h0)))]
  simp [COMPRESSION_EXTENSIONS_ALLOWED]

/-- Witness for C8: `gz` is a valid compression field. -/
theorem C8_witness : compression_is_valid "gz" = true :=
  (C8_compression_characterisation.2.1 "gz" (by decide)).mpr (Or.inl rfl)

/-- C1 fails on the code: at the 37-character filename
`ALGO00CAN_R_20121601000_01H_01S_MO.rn` (the exemplar with its format field
truncated to two characters) every check the claim lists as participating
passes — the spec-described composite without the format conjunct accepts —
yet `ObservationFile.is_valid` rejects, so the verdict does depend on
`format_is_valid` of the sliced format field. -/
theorem C1_counterexample :
    ObservationFile.is_valid ["CAN"] ⟨"ALGO00CAN_R_20121601000_01H_01S_MO.rn"⟩ = some false ∧
    is_valid_without_format ["CAN"] "ALGO00CAN_R_20121601000_01H_01S_MO.rn" = some true ∧
    format_is_valid (ObservationFile.format_ ⟨"ALGO00CAN_R_20121601000_01H_01S_MO.rn"⟩)
      = false := by
  refine ⟨by decide, by decide, by decide⟩

/-- C1 (amended): the final conjunction of `ObservationFile.is_valid` does
include the `format` field's predicate: the composite verdict can only be
`True` when `format_is_valid` holds of the sliced format field. -/
theorem C1_amended (codes : List String) (o : ObservationFile)
    (h : ObservationFile.is_valid codes o = some true) :
    format_is_valid o.format_ = true := by
  unfold ObservationFile.is_valid at h
  cases hhv : has_valid_characters o._fname with
  | none => rw [hhv] at h; exact Option.noConfusion h
  | some hv =>
      rw [hhv] at h
      have h2 := Option.some.inj h
      simp only [Bool.and_eq_true] at h2
      exact h2.1.2

/-- Witness for C1 (amended) at an accepted exemplar. -/
theorem C1_witness :
    format_is_valid
      (ObservationFile.format_ ⟨"ALGO00CAN_R_20121601000_01H_01S_MO.rnx"⟩) = true :=
  C1_amended ["CAN"] ⟨"ALGO00CAN_R_20121601000_01H_01S_MO.rnx"⟩ (by decide)

/-- C2 fails on the code: for the dot-free filename `ABC` the tuple
unpacking of `fname.split('.', maxsplit=1)` inside `has_valid_characters`
raises an uncaught `ValueError`, which propagates out of
`ObservationFile.is_valid` (modelled `none`) instead of becoming the
verdict `False`. -/
theorem C2_counterexample :
    ObservationFile.is_valid [] ⟨"ABC"⟩ = none := by decide

/-- C2 (amended): `ObservationFile.is_valid` returns a boolean verdict
exactly for the filenames whose path-stripped base name contains a `'.'`;
for any other input the character-set check's tuple unpacking raises an
unhandled `ValueError` that escapes to the caller (besides the
country-code-table load failure acknowledged by the claim). -/
theorem C2_amended (codes : List String) (s : String) :
    (ObservationFile.is_valid codes ⟨s⟩).isSome = true ↔ '.' ∈ (pathlibName s).data := by
  simp only [ObservationFile.is_valid, has_valid_characters]
  by_cases hdot : '.' ∈ (pathlibName s).data
  · rw [if_pos hdot]
    refine iff_of_true ?_ hdot
    split
    · rename_i heq
      exfalso
      split at heq
      · exact Option.noConfusion heq
      · split at heq
        · exact Option.noConfusion heq
        · exact Option.noConfusion heq
    · rfl
  · rw [if_neg hdot]
    exact iff_of_false (by simp) hdot

/-- Witness for C2 (amended): `A.rnx` has a dot, so a verdict is returned. -/
theorem C2_witness : (ObservationFile.is_valid [] ⟨"A.rnx"⟩).isSome = true :=
  (C2_amended [] "A.rnx").mpr (by decide)

/-- C3 fails on the code: `99993661200` has a 4-digit Gregorian year, a
day-of-year in `1..366`, a valid hour and a valid minute, yet
`start_time_is_valid` rejects it: `strptime` resolves day-of-year 366 of
the non-leap year 9999 by rolling over to January 1 of year 10000, which is
out of `datetime`'s range. -/
theorem C3_counterexample :
    start_time_claim_spec "99993661200" = true ∧
    start_time_is_valid "99993661200" = false := by
  refine ⟨by decide, by decide⟩

/-- C3 (amended): `start_time_is_valid s` holds exactly when `s` is 11
digits forming `YYYYDDDHHMM` with year `0001..9999`, day-of-year `1..366`,
hour `0..23` and minute `0..59`, except for the single combination year
`9999` with day `366`, which overflows the supported date range.  (Day 366
of any other non-leap year is accepted — rolled over to January 1 of the
next year — rather than rejected.)  The claim's examples hold: the day-400
and hour-25 length-11 strings are all rejected, and `20121501200` is
accepted. -/
theorem C3_amended :
    (∀ s : String, start_time_is_valid s =
      (start_time_claim_spec s
        && !(decide (yearField s = 9999) && decide (doyField s = 366)))) ∧
    start_time_is_valid "20121501200" = true ∧
    (∀ s : String, s.length = 11 → pySlice s 4 7 = "400" →
      start_time_is_valid s = false) ∧
    (∀ s : String, s.length = 11 → pySlice s 7 9 = "25" →
      start_time_is_valid s = false) := by
  have hmain : ∀ s : String, start_time_is_valid s =
      (start_time_claim_spec s
        && !(decide (yearField s = 9999) && decide (doyField s = 366))) := by
    intro s
    unfold start_time_is_valid start_time_claim_spec
    by_cases h : s.length = 11
    · rw [if_pos h, if_pos h]
    · rw [if_neg h, if_neg h]; rfl
  refine ⟨hmain, by decide, ?_, ?_⟩
  · intro s hlen hdoy
    have hval : doyField s = 400 := by
      have : (s.data.drop 4).take 3 = ['4', '0', '0'] := by
        have := congrArg String.data hdoy
        simpa [pySlice] using this
      simp [doyField, this, digitsToNat]
    rw [hmain s]
    unfold start_time_claim_spec
    rw [if_pos hlen, hval]
    simp
  · intro s hlen hhour
    have hval : hourField s = 25 := by
      have : (s.data.drop 7).take 2 = ['2', '5'] := by
        have := congrArg String.data hhour
        simpa [pySlice] using this
      simp [hourField, this, digitsToNat]
    rw [hmain s]
    unfold start_time_claim_spec
    rw [if_pos hlen, hval]
    simp

/-- Witness for C3 (amended): the day-400 clause applied at a concrete
length-11 input. -/
theorem C3_witness : start_time_is_valid "20124001200" = false :=
  C3_amended.2.2.1 "20124001200" (by decide) (by decide)

/-- C4 fails on the code: Python slicing never raises for out-of-range
bounds, so on the 3-character filename `ABC` the `Field(0, 9)` descriptor
silently returns the truncated value `ABC` instead of failing with an
out-of-range error. -/
theorem C4_counterexample :
    ObservationFile.name ⟨"ABC"⟩ = "ABC" ∧ ("ABC" : String).length < 9 := by
  refine ⟨by decide, by decide⟩

/-- C4 (amended): field extraction never fails; for a filename shorter than
9 characters the `name` field is the whole (truncated) string, and the
composite validator still rejects such filenames, because `name_is_valid`
demands exactly 9 characters — `is_valid` never returns `some true` for
them (it returns `some false`, or `none` when the base name has no dot). -/
theorem C4_amended (codes : List String) (s : String) (h : s.length < 9) :
    ObservationFile.name ⟨s⟩ = s ∧ ObservationFile.is_valid codes ⟨s⟩ ≠ some true := by
  have hname : ObservationFile.name ⟨s⟩ = s := by
    apply String.ext
    show (s.data.drop 0).take (9 - 0) = s.data
    rw [List.drop_zero]
    exact List.take_of_length_le (Nat.le_of_lt (length_eq_data_length s ▸ h))
  refine ⟨hname, fun hcontra => ?_⟩
  unfold ObservationFile.is_valid at hcontra
  cases hhv : has_valid_characters (ObservationFile._fname ⟨s⟩) with
  | none => rw [hhv] at hcontra; exact Option.noConfusion hcontra
  | some hv =>
      rw [hhv] at hcontra
      have h2 := Option.some.inj hcontra
      simp only [Bool.and_eq_true] at h2
      have hn : name_is_valid codes (ObservationFile.name ⟨s⟩) = true := h2.1.1.1.1.1.1.1.2
      rw [hname] at hn
      unfold name_is_valid at hn
      rw [if_pos (by omega : s.length ≠ 9)] at hn
      exact Bool.false_ne_true hn

/-- Witness for C4 (amended) at the concrete short filename `ABC`. -/
theorem C4_witness :
    ObservationFile.name ⟨"ABC"⟩ = "ABC" ∧
    ObservationFile.is_valid [] ⟨"ABC"⟩ ≠ some true :=
  C4_amended [] "ABC" (by decide)

theorem data_mk (l : List Char) : (String.mk l).data = l := rfl

theorem splitOnChar_ne_nil (sep : Char) (l : List Char) : splitOnChar sep l ≠ [] := by
  cases l with
  | nil => simp [splitOnChar]
  | cons c cs =>
      simp only [splitOnChar]
      cases h : splitOnChar sep cs with
      | nil => simp
      | cons g gs => by_cases hc : c = sep <;> simp [hc]

theorem sep_not_mem_of_mem_splitOnChar (sep : Char) (l : List Char) :
    ∀ c ∈ splitOnChar sep l, sep ∉ c := by
  induction l with
  | nil =>
      intro c hc
      simp only [splitOnChar, List.mem_singleton] at hc
      subst hc
      simp
  | cons x xs ih =>
      intro c hc
      simp only [splitOnChar] at hc
      cases h : splitOnChar sep xs with
      | nil => exact absurd h (splitOnChar_ne_nil sep xs)
      | cons g gs =>
          rw [h] at hc
          dsimp only at hc
          by_cases hx : x = sep
          · rw [if_pos hx] at hc
            rcases List.mem_cons.mp hc with rfl | hc2
            · simp
            · exact ih c (by rw [h]; exact hc2)
          · rw [if_neg hx] at hc
            rcases List.mem_cons.mp hc with rfl | hc2
            · intro hmem
              rcases List.mem_cons.mp hmem with he | hmem2
              · exact hx he.symm
              · exact ih g (by rw [h]; exact List.mem_cons_self g gs) hmem2
            · exact ih c (by rw [h]; exact List.mem_cons_of_mem g hc2)

theorem splitOnChar_of_not_mem (sep : Char) (l : List Char) (h : sep ∉ l) :
    splitOnChar sep l = [l] := by
  induction l with
  | nil => rfl
  | cons x xs ih =>
      have hx : ¬ (x = sep) := fun he => h (List.mem_cons.mpr (Or.inl he.symm))
      have hxs : sep ∉ xs := fun hm => h (List.mem_cons_of_mem x hm)
      simp only [splitOnChar, ih hxs]
      rw [if_neg hx]

theorem pathlibName_fixed (r : List Char) (hsl : '/' ∉ r) (hne : r ≠ [])
    (hdot : r ≠ ['.']) : pathlibName (String.mk r) = String.mk r := by
  unfold pathlibName
  simp only [data_mk, splitOnChar_of_not_mem '/' r hsl]
  rw [List.filter_singleton,
    show decide (r ≠ [] ∧ r ≠ ['.']) = true from decide_eq_true (And.intro hne hdot)]
  rfl

theorem pathlibName_idem (s : String) : pathlibName (pathlibName s) = pathlibName s := by
  rcases hl : ((splitOnChar '/' s.data).filter (fun c => decide (c ≠ [] ∧ c ≠ ['.']))).getLast?
    with _ | c
  · have hs : pathlibName s = String.mk [] := by simp only [pathlibName]; rw [hl]; rfl
    rw [hs]
    rfl
  · have hs : pathlibName s = String.mk c := by simp only [pathlibName]; rw [hl]; rfl
    have hc2 := List.mem_filter.mp (List.mem_of_getLast?_eq_some hl)
    have hprop : c ≠ [] ∧ c ≠ ['.'] := of_decide_eq_true hc2.2
    have hslash : '/' ∉ c := sep_not_mem_of_mem_splitOnChar '/' s.data c hc2.1
    rw [hs]
    exact pathlibName_fixed c hslash hprop.1 hprop.2

/-- C5 fails on the code: only the character-set pre-check strips the
leading path; the `Field` descriptors slice the raw stored string.  With
the prefixed filename `./ALGO00CAN_R_20121601000_01H_01S_MO.rnx` the name
field is `./ALGO00C`, not the base name's `ALGO00CAN`, and the composite
verdict differs from the base name's verdict. -/
theorem C5_counterexample :
    ObservationFile.name ⟨"./ALGO00CAN_R_20121601000_01H_01S_MO.rnx"⟩ ≠
      ObservationFile.name ⟨pathlibName "./ALGO00CAN_R_20121601000_01H_01S_MO.rnx"⟩ ∧
    ObservationFile.is_valid ["CAN"] ⟨"./ALGO00CAN_R_20121601000_01H_01S_MO.rnx"⟩
      = some false ∧
    ObservationFile.is_valid ["CAN"] ⟨pathlibName "./ALGO00CAN_R_20121601000_01H_01S_MO.rnx"⟩
      = some true := by
  refine ⟨by decide, by decide, by decide⟩

/-- C5 (amended): path stripping happens only in the character-set
pre-check — `has_valid_characters` gives the same answer on a filename and
on its base name — while the field extractor operates on the raw string as
stored, the name field being the slice `[0:9]` of it. -/
theorem C5_amended (s : String) :
    has_valid_characters s = has_valid_characters (pathlibName s) ∧
    ObservationFile.name ⟨s⟩ = pySlice s 0 9 := by
  refine ⟨?_, rfl⟩
  simp only [has_valid_characters, pathlibName_idem]

theorem ext_chars_no_digit : ∀ c ∈ EXTENSION_CHARACTERS, c.isDigit = false := by decide

theorem hvc_false_of_digit_in_ext (s : String)
    (h : ∃ c ∈ (extAfterFirstDot (pathlibName s)).data, c.isDigit = true) :
    has_valid_characters s = some false := by
  obtain ⟨c, hc, hdig⟩ := h
  have hc2 : c ∈ ((pathlibName s).data.dropWhile (fun c => c != '.')).drop 1 := hc
  have hdot : '.' ∈ (pathlibName s).data := by
    by_contra hnd
    have hnil : (pathlibName s).data.dropWhile (fun c => c != '.') = [] :=
      List.dropWhile_eq_nil_iff.mpr (fun x hx => by
        simp only [bne_iff_ne, ne_eq]
        exact fun he => hnd (he ▸ hx))
    rw [hnil] at hc2
    simp at hc2
  have hext : ((((pathlibName s).data.dropWhile (fun c => c != '.')).drop 1).all
      (fun c => decide (c ∈ EXTENSION_CHARACTERS))) = false := by
    refine List.all_eq_false.mpr ⟨c, hc2, ?_⟩
    simp only [decide_eq_true_eq]
    intro hmem
    exact Bool.false_ne_true ((ext_chars_no_digit c hmem) ▸ hdig)
  simp only [has_valid_characters]
  rw [if_pos hdot]
  by_cases hb : (((pathlibName s).data.takeWhile (fun c => c != '.')).all
      (fun c => decide (c ∈ FILENAME_CHARACTERS))) = true
  · rw [if_neg (not_not_intro hb), if_pos (fun hcon => Bool.false_ne_true (hext ▸ hcon))]
  · rw [if_pos hb]

theorem is_valid_false_of_hvc (codes : List String) (o : ObservationFile)
    (h : has_valid_characters o._fname = some false) :
    ObservationFile.is_valid codes o = some false := by
  unfold ObservationFile.is_valid
  rw [h]
  simp

theorem two_mem_ext (l : List Char) :
    '2' ∈ ((l ++ ('.' :: 'b' :: 'z' :: '2' :: [])).dropWhile (fun c => c != '.')).drop 1 := by
  induction l with
  | nil => decide
  | cons x xs ih =>
      by_cases hx : x = '.'
      · subst hx
        rw [List.cons_append, List.dropWhile_cons_of_neg (by simp)]
        exact List.mem_append_right _ (by decide)
      · rw [List.cons_append, List.dropWhile_cons_of_pos (by simp [hx])]
        exact ih

/-- C10 fails as stated: for a filename whose *path* contains the first
`'.'`, the text after the first `'.'` of the whole string is not what
`has_valid_characters` inspects.  At
`A.2/00CAN_R_20121601000_01H_01S_MO.rnx` the text after the first `'.'`
contains the digit `2`, yet the character check passes (it looks at the
base name's extension `rnx`) and the composite validator accepts. -/
theorem C10_counterexample :
    ('2' ∈ (extAfterFirstDot "A.2/00CAN_R_20121601000_01H_01S_MO.rnx").data ∧
      Char.isDigit '2' = true) ∧
    has_valid_characters "A.2/00CAN_R_20121601000_01H_01S_MO.rnx" = some true ∧
    ObservationFile.is_valid ["CAN"] ⟨"A.2/00CAN_R_20121601000_01H_01S_MO.rnx"⟩
      = some true := by
  refine ⟨⟨by decide, by decide⟩, by decide, by decide⟩

/-- C10 (amended): for every filename whose *base-name* extension part (the
text after the first `'.'` of the path-stripped name) contains a decimal
digit, `has_valid_characters` returns `False` and the composite validator
rejects; in particular every filename whose base name carries the
compression suffix `.bz2` is rejected, even though
`compression_is_valid "bz2"` holds in isolation. -/
theorem C10_amended :
    (∀ (codes : List String) (s : String),
      (∃ c ∈ (extAfterFirstDot (pathlibName s)).data, c.isDigit = true) →
        has_valid_characters s = some false ∧
        ObservationFile.is_valid codes ⟨s⟩ = some false) ∧
    (∀ (codes : List String) (s b : String), pathlibName s = b ++ ".bz2" →
        ObservationFile.is_valid codes ⟨s⟩ = some false) ∧
    compression_is_valid "bz2" = true := by
  have main : ∀ (codes : List String) (s : String),
      (∃ c ∈ (extAfterFirstDot (pathlibName s)).data, c.isDigit = true) →
        has_valid_characters s = some false ∧
        ObservationFile.is_valid codes ⟨s⟩ = some false := by
    intro codes s h
    have h1 := hvc_false_of_digit_in_ext s h
    exact ⟨h1, is_valid_false_of_hvc codes ⟨s⟩ h1⟩
  refine ⟨main, ?_, by decide⟩
  intro codes s b hb
  refine (main codes s ⟨'2', ?_, by decide⟩).2
  show '2' ∈ ((pathlibName s).data.dropWhile (fun c => c != '.')).drop 1
  rw [hb, String.data_append]
  exact two_mem_ext b.data

/-- Witness for C10 (amended): the exemplar with a `.bz2` compression
suffix is rejected although each of its fields is individually valid. -/
theorem C10_witness :
    has_valid_characters "ALGO00CAN_R_20121601000_01H_01S_MO.rnx.bz2" = some false ∧
    ObservationFile.is_valid ["CAN"] ⟨"ALGO00CAN_R_20121601000_01H_01S_MO.rnx.bz2"⟩
      = some false :=
  C10_amended.1 ["CAN"] "ALGO00CAN_R_20121601000_01H_01S_MO.rnx.bz2"
    ⟨'2', by decide, by decide⟩

theorem data_empty : ("" : String).data = [] := rfl

theorem data_underscore : ("_" : String).data = ['_'] := rfl

theorem data_dot : ("." : String).data = ['.'] := rfl

theorem pySlice_mk_head (x : String) (R : List Char) (b : Nat) (hb : x.data.length = b) :
    pySlice (String.mk (x.data ++ R)) 0 b = x := by
  unfold pySlice
  rw [data_mk, List.drop_zero, Nat.sub_zero, List.take_left' hb]

theorem pySlice_mk_full (x : String) (b : Nat) (hx : x.data.length ≤ b) :
    pySlice (String.mk x.data) 0 b = x := by
  unfold pySlice
  rw [data_mk, List.drop_zero, Nat.sub_zero, List.take_of_length_le hx]

theorem pySlice_mk_nil (L : List Char) (a b : Nat) (h : L.length ≤ a) :
    pySlice (String.mk L) a b = "" := by
  unfold pySlice
  rw [data_mk, List.drop_of_length_le h, List.take_nil]

theorem pySlice_mk_peel (x : List Char) (k : Nat) (hk : x.length = k) (sep : Char)
    (R : List Char) (a b : Nat) (ha : k + 1 ≤ a) :
    pySlice (String.mk (x ++ sep :: R)) a b =
      pySlice (String.mk R) (a - (k + 1)) (b - (k + 1)) := by
  unfold pySlice
  rw [data_mk, data_mk]
  have hsh : x ++ sep :: R = (x ++ [sep]) ++ R := by simp
  have hdrop : (x ++ sep :: R).drop a = R.drop (a - (k + 1)) := by
    rw [hsh, List.drop_append_eq_append_drop,
      List.drop_of_length_le (by simp [hk]; omega), List.nil_append]
    simp [hk]
  rw [hdrop, show b - a = (b - (k + 1)) - (a - (k + 1)) from by omega]

/-- C9: on a filename in the canonical fixed-width layout, re-concatenating
the eight extracted fields with the standard separators (and the `.` plus
compression suffix exactly when the compression field is non-empty)
reproduces the original body-plus-extension string. -/
theorem C9_roundtrip (n r t p f d fm c : String)
    (hn : n.length = 9) (hr : r.length = 1) (ht : t.length = 11) (hp : p.length = 3)
    (hf : f.length = 3) (hd : d.length = 2) (hm : fm.length = 3)
    (hc : c = "" ∨ c.length = 2 ∨ c.length = 3) :
    recombine ⟨canonicalLayout n r t p f d fm c⟩ = canonicalLayout n r t p f d fm c := by
  have hn' : n.data.length = 9 := hn
  have hr' : r.data.length = 1 := hr
  have ht' : t.data.length = 11 := ht
  have hp' : p.data.length = 3 := hp
  have hf' : f.data.length = 3 := hf
  have hd' : d.data.length = 2 := hd
  have hm' : fm.data.length = 3 := hm
  unfold recombine
  rcases hc with rfl | hclen
  · have hdata : canonicalLayout n r t p f d fm "" =
        String.mk (n.data ++ '_' :: (r.data ++ '_' :: (t.data ++ '_' :: (p.data ++ '_' ::
          (f.data ++ '_' :: (d.data ++ '.' :: (fm.data ++ ([] : List Char)))))))) :=
      String.ext (by simp [canonicalLayout, data_mk, data_underscore, data_dot, data_empty])
    have e1 : ObservationFile.name ⟨canonicalLayout n r t p f d fm ""⟩ = n := by
      show pySlice (canonicalLayout n r t p f d fm "") 0 9 = n
      rw [hdata]
      exact pySlice_mk_head n _ 9 hn'
    have e2 : ObservationFile.receiver ⟨canonicalLayout n r t p f d fm ""⟩ = r := by
      show pySlice (canonicalLayout n r t p f d fm "") 10 11 = r
      rw [hdata, pySlice_mk_peel n.data 9 hn' '_' _ 10 11 (by omega)]
      norm_num
      exact pySlice_mk_head r _ 1 hr'
    have e3 : ObservationFile.start_time ⟨canonicalLayout n r t p f d fm ""⟩ = t := by
      show pySlice (canonicalLayout n r t p f d fm "") 12 23 = t
      rw [hdata, pySlice_mk_peel n.data 9 hn' '_' _ 12 23 (by omega)]
      norm_num
      rw [pySlice_mk_peel r.data 1 hr' '_' _ 2 13 (by omega)]
      norm_num
      exact pySlice_mk_head t _ 11 ht'
    have e4 : ObservationFile.file_period ⟨canonicalLayout n r t p f d fm ""⟩ = p := by
      show pySlice (canonicalLayout n r t p f d fm "") 24 27 = p
      rw [hdata, pySlice_mk_peel n.data 9 hn' '_' _ 24 27 (by omega)]
      norm_num
      rw [pySlice_mk_peel r.data 1 hr' '_' _ 14 17 (by omega)]
      norm_num
      rw [pySlice_mk_peel t.data 11 ht' '_' _ 12 15 (by omega)]
      norm_num
      exact pySlice_mk_head p _ 3 hp'
    have e5 : ObservationFile.data_freq ⟨canonicalLayout n r t p f d fm ""⟩ = f := by
      show pySlice (canonicalLayout n r t p f d fm "") 28 31 = f
      rw [hdata, pySlice_mk_peel n.data 9 hn' '_' _ 28 31 (by omega)]
      norm_num
      rw [pySlice_mk_peel r.data 1 hr' '_' _ 18 21 (by omega)]
      norm_num
      rw [pySlice_mk_peel t.data 11 ht' '_' _ 16 19 (by omega)]
      norm_num
      rw [pySlice_mk_peel p.data 3 hp' '_' _ 4 7 (by omega)]
      norm_num
      exact pySlice_mk_head f _ 3 hf'
    have e6 : ObservationFile.data_type ⟨canonicalLayout n r t p f d fm ""⟩ = d := by
      show pySlice (canonicalLayout n r t p f d fm "") 32 34 = d
      rw [hdata, pySlice_mk_peel n.data 9 hn' '_' _ 32 34 (by omega)]
      norm_num
      rw [pySlice_mk_peel r.data 1 hr' '_' _ 22 24 (by omega)]
      norm_num
      rw [pySlice_mk_peel t.data 11 ht' '_' _ 20 22 (by omega)]
      norm_num
      rw [pySlice_mk_peel p.data 3 hp' '_' _ 8 10 (by omega)]
      norm_num
      rw [pySlice_mk_peel f.data 3 hf' '_' _ 4 6 (by omega)]
      norm_num
      exact pySlice_mk_head d _ 2 hd'
    have e7 : ObservationFile.format_ ⟨canonicalLayout n r t p f d fm ""⟩ = fm := by
      show pySlice (canonicalLayout n r t p f d fm "") 35 38 = fm
      rw [hdata, pySlice_mk_peel n.data 9 hn' '_' _ 35 38 (by omega)]
      norm_num
      rw [pySlice_mk_peel r.data 1 hr' '_' _ 25 28 (by omega)]
      norm_num
      rw [pySlice_mk_peel t.data 11 ht' '_' _ 23 26 (by omega)]
      norm_num
      rw [pySlice_mk_peel p.data 3 hp' '_' _ 11 14 (by omega)]
      norm_num
      rw [pySlice_mk_peel f.data 3 hf' '_' _ 7 10 (by omega)]
      norm_num
      rw [pySlice_mk_peel d.data 2 hd' '.' _ 3 6 (by omega)]
      norm_num
      exact pySlice_mk_full fm 3 (by simp [hm'])
    have e8 : ObservationFile.compression ⟨canonicalLayout n r t p f d fm ""⟩ = "" := by
      show pySlice (canonicalLayout n r t p f d fm "") 39 42 = ""
      rw [hdata, pySlice_mk_peel n.data 9 hn' '_' _ 39 42 (by omega)]
      norm_num
      rw [pySlice_mk_peel r.data 1 hr' '_' _ 29 32 (by omega)]
      norm_num
      rw [pySlice_mk_peel t.data 11 ht' '_' _ 27 30 (by omega)]
      norm_num
      rw [pySlice_mk_peel p.data 3 hp' '_' _ 15 18 (by omega)]
      norm_num
      rw [pySlice_mk_peel f.data 3 hf' '_' _ 11 14 (by omega)]
      norm_num
      rw [pySlice_mk_peel d.data 2 hd' '.' _ 7 10 (by omega)]
      norm_num
      exact pySlice_mk_nil _ 4 7 (by simp [hm'])
    rw [e1, e2, e3, e4, e5, e6, e7, e8]
    simp [canonicalLayout]
  · have hcne : c ≠ "" := by
      intro he
      rcases hclen with h2 | h2 <;> (rw [he] at h2; exact absurd h2 (by decide))
    have hdata : canonicalLayout n r t p f d fm c =
        String.mk (n.data ++ '_' :: (r.data ++ '_' :: (t.data ++ '_' :: (p.data ++ '_' ::
          (f.data ++ '_' :: (d.data ++ '.' :: (fm.data ++ '.' :: c.data))))))) :=
      String.ext (by
        simp [canonicalLayout, data_mk, data_underscore, data_dot, hcne])
    have e1 : ObservationFile.name ⟨canonicalLayout n r t p f d fm c⟩ = n := by
      show pySlice (canonicalLayout n r t p f d fm c) 0 9 = n
      rw [hdata]
      exact pySlice_mk_head n _ 9 hn'
    have e2 : ObservationFile.receiver ⟨canonicalLayout n r t p f d fm c⟩ = r := by
      show pySlice (canonicalLayout n r t p f d fm c) 10 11 = r
      rw [hdata, pySlice_mk_peel n.data 9 hn' '_' _ 10 11 (by omega)]
      norm_num
      exact pySlice_mk_head r _ 1 hr'
    have e3 : ObservationFile.start_time ⟨canonicalLayout n r t p f d fm c⟩ = t := by
      show pySlice (canonicalLayout n r t p f d fm c) 12 23 = t
      rw [hdata, pySlice_mk_peel n.data 9 hn' '_' _ 12 23 (by omega)]
      norm_num
      rw [pySlice_mk_peel r.data 1 hr' '_' _ 2 13 (by omega)]
      norm_num
      exact pySlice_mk_head t _ 11 ht'
    have e4 : ObservationFile.file_period ⟨canonicalLayout n r t p f d fm c⟩ = p := by
      show pySlice (canonicalLayout n r t p f d fm c) 24 27 = p
      rw [hdata, pySlice_mk_peel n.data 9 hn' '_' _ 24 27 (by omega)]
      norm_num
      rw [pySlice_mk_peel r.data 1 hr' '_' _ 14 17 (by omega)]
      norm_num
      rw [pySlice_mk_peel t.data 11 ht' '_' _ 12 15 (by omega)]
      norm_num
      exact pySlice_mk_head p _ 3 hp'
    have e5 : ObservationFile.data_freq ⟨canonicalLayout n r t p f d fm c⟩ = f := by
      show pySlice (canonicalLayout n r t p f d fm c) 28 31 = f
      rw [hdata, pySlice_mk_peel n.data 9 hn' '_' _ 28 31 (by omega)]
      norm_num
      rw [pySlice_mk_peel r.data 1 hr' '_' _ 18 21 (by omega)]
      norm_num
      rw [pySlice_mk_peel t.data 11 ht' '_' _ 16 19 (by omega)]
      norm_num
      rw [pySlice_mk_peel p.data 3 hp' '_' _ 4 7 (by omega)]
      norm_num
      exact pySlice_mk_head f _ 3 hf'
    have e6 : ObservationFile.data_type ⟨canonicalLayout n r t p f d fm c⟩ = d := by
      show pySlice (canonicalLayout n r t p f d fm c) 32 34 = d
      rw [hdata, pySlice_mk_peel n.data 9 hn' '_' _ 32 34 (by omega)]
      norm_num
      rw [pySlice_mk_peel r.data 1 hr' '_' _ 22 24 (by omega)]
      norm_num
      rw [pySlice_mk_peel t.data 11 ht' '_' _ 20 22 (by omega)]
      norm_num
      rw [pySlice_mk_peel p.data 3 hp' '_' _ 8 10 (by omega)]
      norm_num
      rw [pySlice_mk_peel f.data 3 hf' '_' _ 4 6 (by omega)]
      norm_num
      exact pySlice_mk_head d _ 2 hd'
    have e7 : ObservationFile.format_ ⟨canonicalLayout n r t p f d fm c⟩ = fm := by
      show pySlice (canonicalLayout n r t p f d fm c) 35 38 = fm
      rw [hdata, pySlice_mk_peel n.data 9 hn' '_' _ 35 38 (by omega)]
      norm_num
      rw [pySlice_mk_peel r.data 1 hr' '_' _ 25 28 (by omega)]
      norm_num
      rw [pySlice_mk_peel t.data 11 ht' '_' _ 23 26 (by omega)]
      norm_num
      rw [pySlice_mk_peel p.data 3 hp' '_' _ 11 14 (by omega)]
      norm_num
      rw [pySlice_mk_peel f.data 3 hf' '_' _ 7 10 (by omega)]
      norm_num
      rw [pySlice_mk_peel d.data 2 hd' '.' _ 3 6 (by omega)]
      norm_num
      exact pySlice_mk_head fm _ 3 hm'
    have e8 : ObservationFile.compression ⟨canonicalLayout n r t p f d fm c⟩ = c := by
      show pySlice (canonicalLayout n r t p f d fm c) 39 42 = c
      rw [hdata, pySlice_mk_peel n.data 9 hn' '_' _ 39 42 (by omega)]
      norm_num
      rw [pySlice_mk_peel r.data 1 hr' '_' _ 29 32 (by omega)]
      norm_num
      rw [pySlice_mk_peel t.data 11 ht' '_' _ 27 30 (by omega)]
      norm_num
      rw [pySlice_mk_peel p.data 3 hp' '_' _ 15 18 (by omega)]
      norm_num
      rw [pySlice_mk_peel f.data 3 hf' '_' _ 11 14 (by omega)]
      norm_num
      rw [pySlice_mk_peel d.data 2 hd' '.' _ 7 10 (by omega)]
      norm_num
      rw [pySlice_mk_peel fm.data 3 hm' '.' _ 4 7 (by omega)]
      norm_num
      exact pySlice_mk_full c 3 (by rcases hclen with h | h <;> simp [show c.data.length = _ from h])
    rw [e1, e2, e3, e4, e5, e6, e7, e8]
    simp [canonicalLayout]

/-- Witness for C9 at a concrete canonical filename with compression. -/
theorem C9_witness :
    recombine ⟨canonicalLayout "ALGO00CAN" "R" "20121601000" "01H" "01S" "MO" "rnx" "gz"⟩ =
      canonicalLayout "ALGO00CAN" "R" "20121601000" "01H" "01S" "MO" "rnx" "gz" :=
  C9_roundtrip "ALGO00CAN" "R" "20121601000" "01H" "01S" "MO" "rnx" "gz"
    (by decide) (by decide) (by decide) (by decide) (by decide) (by decide) (by decide)
    (Or.inr (Or.inl (by decide)))

end Rinex
